import Mathlib

/-!
Shallow embedding of viseron/components/nvr/zone.py.

A `Zone` limits object detection to a polygonal sub-region of the camera field of
view.  `Zone.filter_zone` walks a detection batch, keeps the detections that
have a configured per-label filter, pass that filter, and lie inside the zone
polygon, mutating the flags of accepted detections in place, and then hands the
accepted list to `Zone.objects_in_zone_setter`, which stores it and dispatches
an event when it differs from the previously stored list.

External collaborators (the `Filter` class, the point-in-polygon helper, the
event dispatcher, `DetectedObject`) are not part of the source file; they are
modelled as explicit parameters or, where their behaviour decides a claim,
from the specification (see the doc comments below).
-/

namespace Viseron

/-- Opaque reference identifying which video frame a detection batch belongs
to (`SharedFrame` in the source); only its identity matters here. -/
structure SharedFrame where
  frameId : Nat
deriving DecidableEq, Repr

/-- Modelled from the spec: `DetectedObject` is an external entity (its class
lives outside the source file).  Per the spec it carries a label, a geometric
extent, a mutable "relevant" flag and a mutable "trigger recorder" flag; the
`objId` field models the Python object identity, which is not part of value
equality. -/
structure DetectedObject where
  objId : Nat
  label : String
  rel_x1 : Int
  rel_y1 : Int
  rel_x2 : Int
  rel_y2 : Int
  relevant : Bool
  trigger_recorder : Bool
deriving DecidableEq, Repr

/-- Modelled from the spec: value equality of two detections ("element-wise"
comparison of the stored list uses value equality).  Every attribute except
the identity `objId` participates. -/
def DetectedObject.valueEq (a b : DetectedObject) : Bool :=
  a.label == b.label && a.rel_x1 == b.rel_x1 && a.rel_y1 == b.rel_y1 &&
    a.rel_x2 == b.rel_x2 && a.rel_y2 == b.rel_y2 &&
    a.relevant == b.relevant && a.trigger_recorder == b.trigger_recorder

/-- Modelled from the spec: Python list equality over detections — equal
lengths and element-wise `DetectedObject.valueEq`, order-sensitive. -/
def listValueEq : List DetectedObject → List DetectedObject → Bool
  | [], [] => true
  | a :: as, b :: bs => a.valueEq b && listValueEq as bs
  | _ :: _, [] => false
  | [], _ :: _ => false

/-- Modelled from the spec: the per-label filter capability
(`viseron.helpers.filter.Filter`, outside the source file) exposes
`filter_object(obj) -> bool` and a `trigger_recorder` property. -/
structure Filter where
  filter_object : DetectedObject → Bool
  trigger_recorder : Bool

/-- Camera resolution (width, height). -/
abbrev Resolution := Int × Int

/-- Zone polygon in absolute pixel coordinates (the numpy array produced by
`generate_numpy_from_coordinates` at construction). -/
abbrev Coordinates := List (Int × Int)

/-- The external point-in-polygon capability
`helpers.object_in_polygon(resolution, obj, coordinates)`. -/
abbrev ObjectInPolygon := Resolution → DetectedObject → Coordinates → Bool

/-- One consultation of an external capability during `filter_zone`, recorded
in evaluation order; used to state which detections ever reach the geometry
test. -/
inductive ZoneCall where
  | filterLookup : String → ZoneCall
  | filterObjectTest : DetectedObject → ZoneCall
  | objectInPolygonTest : DetectedObject → ZoneCall
deriving DecidableEq, Repr

/-- State of a `Zone` (fields of the Python object that the claims touch):
the identifier and resolution of the owning camera, the zone name, the polygon,
the label-to-filter mapping `_object_filters`, and the stored
`_objects_in_zone` list. -/
structure Zone where
  camera_identifier : String
  camera_resolution : Resolution
  name : String
  coordinates : Coordinates
  object_filters : String → Option Filter
  objects_in_zone : List DetectedObject

/-- The `_object_filters` dict built by `Zone.__init__`: a later entry for the
same label overwrites an earlier one, lookup of an unconfigured label yields
`none`. -/
def buildObjectFilters (zone_labels : List (String × Filter)) :
    String → Option Filter :=
  zone_labels.foldl (fun m p l => if l == p.1 then some p.2 else m l)
    (fun _ => none)

/-- `Zone.__init__`: records the camera identifier and resolution, the zone
name and denormalized polygon coordinates, builds `_object_filters` from the
configured labels, and starts with an empty `_objects_in_zone` list. -/
def Zone.init (camera_identifier : String) (camera_resolution : Resolution)
    (name : String) (coordinates : Coordinates)
    (zone_labels : List (String × Filter)) : Zone :=
  { camera_identifier := camera_identifier,
    camera_resolution := camera_resolution,
    name := name,
    coordinates := coordinates,
    object_filters := buildObjectFilters zone_labels,
    objects_in_zone := [] }

/-- The topic template `EVENT_OBJECTS_IN_ZONE` after `.format`: the literal
pieces are `camera_identifier`, "/zone/", `zone_name`, "/objects". -/
def EVENT_OBJECTS_IN_ZONE (camera_identifier zone_name : String) : String :=
  camera_identifier ++ "/zone/" ++ zone_name ++ "/objects"

/-- An event handed to `dispatch_event`: the formatted topic and the payload
dict `{camera_identifier, shared_frame, zone, objects}`.  The `zone` field is
the dispatching `Zone` itself, observed after its stored list was replaced. -/
structure Event where
  topic : String
  camera_identifier : String
  shared_frame : SharedFrame
  zone : Zone
  objects : List DetectedObject

/-- Result of processing a single detection inside the `filter_zone` loop:
the (possibly flag-mutated) detection, whether it was appended to
`objects_in_zone`, and the external calls made for it. -/
structure ProcessResult where
  obj : DetectedObject
  accepted : Bool
  calls : List ZoneCall
deriving Repr

/-- Body of the `for obj in objects` loop of `Zone.filter_zone`:
`self._object_filters.get(obj.label)` (a missing filter is falsy, so the
detection is skipped), then `filter_object(obj)`, then
`helpers.object_in_polygon(...)`; on containment the `relevant`
flag of the detection is set to `True`, it is accepted, and `trigger_recorder` is set to
`True` when the `trigger_recorder` property of the filter holds (otherwise the
flag keeps its previous value). -/
def processObject (object_filters : String → Option Filter)
    (object_in_polygon : ObjectInPolygon)
    (camera_resolution : Resolution) (coordinates : Coordinates)
    (obj : DetectedObject) : ProcessResult :=
  match object_filters obj.label with
  | none => ⟨obj, false, [ZoneCall.filterLookup obj.label]⟩
  | some f =>
    if f.filter_object obj then
      if object_in_polygon camera_resolution obj coordinates then
        ⟨{ obj with
            relevant := true
            trigger_recorder := obj.trigger_recorder || f.trigger_recorder },
          true,
          [ZoneCall.filterLookup obj.label, ZoneCall.filterObjectTest obj,
            ZoneCall.objectInPolygonTest obj]⟩
      else
        ⟨obj, false,
          [ZoneCall.filterLookup obj.label, ZoneCall.filterObjectTest obj,
            ZoneCall.objectInPolygonTest obj]⟩
    else
      ⟨obj, false,
        [ZoneCall.filterLookup obj.label, ZoneCall.filterObjectTest obj]⟩

/-- Result of the whole `filter_zone` loop: the batch after in-place flag
mutation (same detections, same order), the `objects_in_zone` list built by
`append` in input order, and the concatenated call trace. -/
structure LoopResult where
  batch : List DetectedObject
  accepted : List DetectedObject
  calls : List ZoneCall
deriving Repr

/-- The `for obj in objects` loop of `Zone.filter_zone`, detections processed
left to right. -/
def filterZoneLoop (object_filters : String → Option Filter)
    (object_in_polygon : ObjectInPolygon)
    (camera_resolution : Resolution) (coordinates : Coordinates) :
    List DetectedObject → LoopResult
  | [] => ⟨[], [], []⟩
  | obj :: rest =>
    let r := processObject object_filters object_in_polygon
      camera_resolution coordinates obj
    let rs := filterZoneLoop object_filters object_in_polygon
      camera_resolution coordinates rest
    ⟨r.obj :: rs.batch,
      if r.accepted then r.obj :: rs.accepted else rs.accepted,
      r.calls ++ rs.calls⟩

/-- `Zone.objects_in_zone_setter`: if the new list equals the stored
`_objects_in_zone` it returns without doing anything; otherwise it replaces
the stored list and dispatches one event on the per-camera-per-zone topic
with the payload `{camera_identifier, shared_frame, zone, objects}`. -/
def Zone.objects_in_zone_setter (z : Zone) (shared_frame : SharedFrame)
    (objects : List DetectedObject) : Zone × List Event :=
  if listValueEq objects z.objects_in_zone then
    (z, [])
  else
    let z2 := { z with objects_in_zone := objects }
    (z2,
      [{ topic := EVENT_OBJECTS_IN_ZONE z2.camera_identifier z2.name,
          camera_identifier := z2.camera_identifier,
          shared_frame := shared_frame,
          zone := z2,
          objects := objects }])

/-- Result of `Zone.filter_zone`: the zone after the update, the events
dispatched, the batch after in-place flag mutation, the accepted list passed
to the setter, and the external call trace. -/
structure FilterZoneResult where
  zone : Zone
  events : List Event
  batch : List DetectedObject
  accepted : List DetectedObject
  calls : List ZoneCall

/-- `Zone.filter_zone`: runs the loop over the batch and hands the collected
`objects_in_zone` to `objects_in_zone_setter`. -/
def Zone.filter_zone (object_in_polygon : ObjectInPolygon) (z : Zone)
    (shared_frame : SharedFrame) (objects : List DetectedObject) :
    FilterZoneResult :=
  let r := filterZoneLoop z.object_filters object_in_polygon
    z.camera_resolution z.coordinates objects
  let s := z.objects_in_zone_setter shared_frame r.accepted
  ⟨s.1, s.2, r.batch, r.accepted, r.calls⟩

/-! Concrete fixtures used to evaluate the embedding on explicit inputs
(a square zone on a 100 by 100 frame, the scenarios of the testable
properties of the spec). -/

/-- Geometry oracle that reports every detection inside the polygon. -/
def gAlways : ObjectInPolygon := fun _ _ _ => true

/-- Geometry oracle that reports every detection outside the polygon. -/
def gNever : ObjectInPolygon := fun _ _ _ => false

/-- A first frame reference. -/
def frame0 : SharedFrame := ⟨0⟩

/-- A second, distinct frame reference. -/
def frame1 : SharedFrame := ⟨1⟩

/-- A filter that passes every detection and does not trigger the
recorder. -/
def passAll : Filter := ⟨fun _ => true, false⟩

/-- The polygon [(0,0), (100,0), (100,100), (0,100)]. -/
def squareZone : Coordinates := [(0, 0), (100, 0), (100, 100), (0, 100)]

/-- A "person" detection with both flags initially false. -/
def objPerson : DetectedObject := ⟨1, "person", 25, 25, 75, 75, false, false⟩

/-- The `objPerson` detection as it looks after being accepted by a
non-triggering filter: `relevant` raised, `trigger_recorder` untouched. -/
def objPersonAcc : DetectedObject := ⟨1, "person", 25, 25, 75, 75, true, false⟩

/-- A detection value-equal to `objPersonAcc` but with a different identity. -/
def objPersonAlias : DetectedObject :=
  ⟨9, "person", 25, 25, 75, 75, true, false⟩

/-- A "car" detection; no zone fixture configures a filter for "car". -/
def objCar : DetectedObject := ⟨2, "car", 25, 25, 75, 75, false, false⟩

/-- A "person" detection arriving with `trigger_recorder` already true. -/
def objFlagged : DetectedObject := ⟨3, "person", 25, 25, 75, 75, false, true⟩

/-- The `objFlagged` detection after acceptance by `passAll`: `relevant`
raised and `trigger_recorder` still true although the filter does not
trigger the recorder. -/
def objFlaggedOut : DetectedObject := ⟨3, "person", 25, 25, 75, 75, true, true⟩

/-- A zone over `squareZone` tracking only the label "person" via
`passAll`. -/
def zonePerson : Zone :=
  Zone.init "camera_one" (100, 100) "zone_one" squareZone [("person", passAll)]

/-- `zonePerson` with a detection already stored in `objects_in_zone`. -/
def zoneStored : Zone := { zonePerson with objects_in_zone := [objPersonAcc] }

/-! Helper lemmas about `processObject`. -/

theorem processObject_objId (fl : String → Option Filter) (g : ObjectInPolygon)
    (res : Resolution) (cs : Coordinates) (obj : DetectedObject) :
    (processObject fl g res cs obj).obj.objId = obj.objId := by
  rcases hl : fl obj.label with _ | f
  · simp [processObject, hl]
  · by_cases hf : f.filter_object obj
    · by_cases hg : g res obj cs <;> simp [processObject, hl, hf, hg]
    · simp [processObject, hl, hf]

theorem processObject_label (fl : String → Option Filter) (g : ObjectInPolygon)
    (res : Resolution) (cs : Coordinates) (obj : DetectedObject) :
    (processObject fl g res cs obj).obj.label = obj.label := by
  rcases hl : fl obj.label with _ | f
  · simp [processObject, hl]
  · by_cases hf : f.filter_object obj
    · by_cases hg : g res obj cs <;> simp [processObject, hl, hf, hg]
    · simp [processObject, hl, hf]

theorem processObject_not_accepted (fl : String → Option Filter)
    (g : ObjectInPolygon) (res : Resolution) (cs : Coordinates)
    (obj : DetectedObject)
    (h : (processObject fl g res cs obj).accepted = false) :
    (processObject fl g res cs obj).obj = obj := by
  rcases hl : fl obj.label with _ | f
  · simp [processObject, hl]
  · by_cases hf : f.filter_object obj
    · by_cases hg : g res obj cs
      · simp [processObject, hl, hf, hg] at h
      · simp [processObject, hl, hf, hg]
    · simp [processObject, hl, hf]

theorem processObject_accepted (fl : String → Option Filter)
    (g : ObjectInPolygon) (res : Resolution) (cs : Coordinates)
    (obj : DetectedObject)
    (h : (processObject fl g res cs obj).accepted = true) :
    ∃ f, fl obj.label = some f ∧ f.filter_object obj = true ∧
      g res obj cs = true ∧
      (processObject fl g res cs obj).obj =
        { obj with
            relevant := true
            trigger_recorder := obj.trigger_recorder || f.trigger_recorder } := by
  rcases hl : fl obj.label with _ | f
  · simp [processObject, hl] at h
  · by_cases hf : f.filter_object obj
    · by_cases hg : g res obj cs
      · exact ⟨f, rfl, hf, hg, by simp [processObject, hl, hf, hg]⟩
      · simp [processObject, hl, hf, hg] at h
    · simp [processObject, hl, hf] at h

theorem processObject_outside (fl : String → Option Filter)
    (g : ObjectInPolygon) (res : Resolution) (cs : Coordinates)
    (obj : DetectedObject) (f : Filter)
    (hl : fl obj.label = some f) (hf : f.filter_object obj = true)
    (hg : g res obj cs = false) :
    (processObject fl g res cs obj).obj = obj ∧
      (processObject fl g res cs obj).accepted = false := by
  simp [processObject, hl, hf, hg]

theorem processObject_geom_call (fl : String → Option Filter)
    (g : ObjectInPolygon) (res : Resolution) (cs : Coordinates)
    (obj o : DetectedObject)
    (h : ZoneCall.objectInPolygonTest o ∈ (processObject fl g res cs obj).calls) :
    o = obj ∧ ∃ f, fl obj.label = some f ∧ f.filter_object obj = true := by
  rcases hl : fl obj.label with _ | f
  · simp [processObject, hl] at h
  · by_cases hf : f.filter_object obj
    · by_cases hg : g res obj cs
      · simp [processObject, hl, hf, hg] at h
        exact ⟨h, f, rfl, hf⟩
      · simp [processObject, hl, hf, hg] at h
        exact ⟨h, f, rfl, hf⟩
    · simp [processObject, hl, hf] at h

/-! Helper lemmas about the `filter_zone` loop. -/

theorem filterZoneLoop_batch (fl : String → Option Filter)
    (g : ObjectInPolygon) (res : Resolution) (cs : Coordinates)
    (objs : List DetectedObject) :
    (filterZoneLoop fl g res cs objs).batch =
      objs.map (fun o => (processObject fl g res cs o).obj) := by
  induction objs with
  | nil => rfl
  | cons a rest ih => simp [filterZoneLoop, ih]

theorem loop_accepted_sublist_batch (fl : String → Option Filter)
    (g : ObjectInPolygon) (res : Resolution) (cs : Coordinates)
    (objs : List DetectedObject) :
    List.Sublist (filterZoneLoop fl g res cs objs).accepted
      (filterZoneLoop fl g res cs objs).batch := by
  induction objs with
  | nil => simp [filterZoneLoop]
  | cons a rest ih =>
    simp only [filterZoneLoop]
    by_cases ha : (processObject fl g res cs a).accepted = true
    · simp only [ha, if_pos]
      exact List.Sublist.cons₂ _ ih
    · simp only [ha, if_neg, Bool.false_eq_true, not_false_iff]
      exact List.Sublist.cons _ ih

theorem loop_accepted_objId_sublist (fl : String → Option Filter)
    (g : ObjectInPolygon) (res : Resolution) (cs : Coordinates)
    (objs : List DetectedObject) :
    List.Sublist
      (((filterZoneLoop fl g res cs objs).accepted).map DetectedObject.objId)
      (objs.map DetectedObject.objId) := by
  induction objs with
  | nil => simp [filterZoneLoop]
  | cons a rest ih =>
    simp only [filterZoneLoop, List.map_cons]
    by_cases ha : (processObject fl g res cs a).accepted = true
    · simp only [ha, if_pos, List.map_cons, processObject_objId]
      exact List.Sublist.cons₂ _ ih
    · simp only [ha, if_neg, Bool.false_eq_true, not_false_iff]
      exact List.Sublist.cons _ ih

theorem mem_loop_accepted (fl : String → Option Filter) (g : ObjectInPolygon)
    (res : Resolution) (cs : Coordinates) (objs : List DetectedObject)
    (o1 : DetectedObject)
    (h : o1 ∈ (filterZoneLoop fl g res cs objs).accepted) :
    ∃ o, o ∈ objs ∧ (processObject fl g res cs o).accepted = true ∧
      (processObject fl g res cs o).obj = o1 := by
  induction objs with
  | nil => simp [filterZoneLoop] at h
  | cons a rest ih =>
    simp only [filterZoneLoop] at h
    by_cases ha : (processObject fl g res cs a).accepted = true
    · simp only [ha, if_pos, List.mem_cons] at h
      rcases h with h | h
      · exact ⟨a, List.mem_cons_self a rest, ha, h.symm⟩
      · rcases ih h with ⟨o, ho, hacc, hobj⟩
        exact ⟨o, List.mem_cons_of_mem a ho, hacc, hobj⟩
    · simp only [ha, if_neg, Bool.false_eq_true, not_false_iff] at h
      rcases ih h with ⟨o, ho, hacc, hobj⟩
      exact ⟨o, List.mem_cons_of_mem a ho, hacc, hobj⟩

theorem loop_accepted_of_mem (fl : String → Option Filter)
    (g : ObjectInPolygon) (res : Resolution) (cs : Coordinates)
    (objs : List DetectedObject) (o : DetectedObject)
    (ho : o ∈ objs) (h : (processObject fl g res cs o).accepted = true) :
    (processObject fl g res cs o).obj ∈
      (filterZoneLoop fl g res cs objs).accepted := by
  induction objs with
  | nil => simp at ho
  | cons a rest ih =>
    simp only [filterZoneLoop]
    rcases List.mem_cons.mp ho with rfl | hmem
    · simp [h]
    · by_cases ha : (processObject fl g res cs a).accepted = true
      · simp only [ha, if_pos, List.mem_cons]
        exact Or.inr (ih hmem)
      · simp only [ha, if_neg, Bool.false_eq_true, not_false_iff]
        exact ih hmem

theorem mem_loop_calls (fl : String → Option Filter) (g : ObjectInPolygon)
    (res : Resolution) (cs : Coordinates) (objs : List DetectedObject)
    (c : ZoneCall)
    (h : c ∈ (filterZoneLoop fl g res cs objs).calls) :
    ∃ o, o ∈ objs ∧ c ∈ (processObject fl g res cs o).calls := by
  induction objs with
  | nil => simp [filterZoneLoop] at h
  | cons a rest ih =>
    simp only [filterZoneLoop, List.mem_append] at h
    rcases h with h | h
    · exact ⟨a, List.mem_cons_self a rest, h⟩
    · rcases ih h with ⟨o, ho, hc⟩
      exact ⟨o, List.mem_cons_of_mem a ho, hc⟩

/-! Helper lemmas about value equality. -/

theorem valueEq_iff (a b : DetectedObject) :
    a.valueEq b = true ↔
      a.label = b.label ∧ a.rel_x1 = b.rel_x1 ∧ a.rel_y1 = b.rel_y1 ∧
        a.rel_x2 = b.rel_x2 ∧ a.rel_y2 = b.rel_y2 ∧
        a.relevant = b.relevant ∧ a.trigger_recorder = b.trigger_recorder := by
  simp [DetectedObject.valueEq, Bool.and_eq_true, and_assoc]

theorem valueEq_refl (a : DetectedObject) : a.valueEq a = true := by
  simp [valueEq_iff]

theorem valueEq_symm (a b : DetectedObject) (h : a.valueEq b = true) :
    b.valueEq a = true := by
  rw [valueEq_iff] at h ⊢
  obtain ⟨h1, h2, h3, h4, h5, h6, h7⟩ := h
  exact ⟨h1.symm, h2.symm, h3.symm, h4.symm, h5.symm, h6.symm, h7.symm⟩

theorem valueEq_trans (a b c : DetectedObject) (hab : a.valueEq b = true)
    (hbc : b.valueEq c = true) : a.valueEq c = true := by
  rw [valueEq_iff] at hab hbc ⊢
  obtain ⟨h1, h2, h3, h4, h5, h6, h7⟩ := hab
  obtain ⟨k1, k2, k3, k4, k5, k6, k7⟩ := hbc
  exact ⟨h1.trans k1, h2.trans k2, h3.trans k3, h4.trans k4, h5.trans k5,
    h6.trans k6, h7.trans k7⟩

theorem listValueEq_refl : ∀ l : List DetectedObject, listValueEq l l = true
  | [] => rfl
  | a :: as => by simp [listValueEq, valueEq_refl, listValueEq_refl as]

theorem listValueEq_symm : ∀ l1 l2 : List DetectedObject,
    listValueEq l1 l2 = true → listValueEq l2 l1 = true
  | [], [], _ => rfl
  | a :: as, b :: bs, h => by
    simp only [listValueEq, Bool.and_eq_true] at h ⊢
    exact ⟨valueEq_symm a b h.1, listValueEq_symm as bs h.2⟩
  | [], _ :: _, h => by simp [listValueEq] at h
  | _ :: _, [], h => by simp [listValueEq] at h

theorem listValueEq_trans : ∀ l1 l2 l3 : List DetectedObject,
    listValueEq l1 l2 = true → listValueEq l2 l3 = true →
      listValueEq l1 l3 = true
  | [], [], _, _, h2 => h2
  | a :: as, b :: bs, c :: cs, h1, h2 => by
    simp only [listValueEq, Bool.and_eq_true] at h1 h2 ⊢
    exact ⟨valueEq_trans a b c h1.1 h2.1, listValueEq_trans as bs cs h1.2 h2.2⟩
  | _ :: _, _ :: _, [], _, h2 => by simp [listValueEq] at h2
  | [], _ :: _, _, h1, _ => by simp [listValueEq] at h1
  | _ :: _, [], _, h1, _ => by simp [listValueEq] at h1

/-! Helper lemmas about the setter and `filter_zone` as a whole. -/

theorem setter_of_valueEq (z : Zone) (sf : SharedFrame)
    (objects : List DetectedObject)
    (h : listValueEq objects z.objects_in_zone = true) :
    z.objects_in_zone_setter sf objects = (z, []) := by
  simp [Zone.objects_in_zone_setter, h]

theorem setter_of_not_valueEq (z : Zone) (sf : SharedFrame)
    (objects : List DetectedObject)
    (h : listValueEq objects z.objects_in_zone = false) :
    z.objects_in_zone_setter sf objects =
      ({ z with objects_in_zone := objects },
        [{ topic := EVENT_OBJECTS_IN_ZONE z.camera_identifier z.name,
            camera_identifier := z.camera_identifier,
            shared_frame := sf,
            zone := { z with objects_in_zone := objects },
            objects := objects }]) := by
  simp [Zone.objects_in_zone_setter, h]

theorem setter_stored_valueEq (z : Zone) (sf : SharedFrame)
    (objects : List DetectedObject) :
    listValueEq objects
      ((z.objects_in_zone_setter sf objects).1.objects_in_zone) = true := by
  by_cases h : listValueEq objects z.objects_in_zone = true
  · simp [Zone.objects_in_zone_setter, h]
  · simp [Zone.objects_in_zone_setter, h, listValueEq_refl]

theorem setter_preserves_fields (z : Zone) (sf : SharedFrame)
    (objects : List DetectedObject) :
    (z.objects_in_zone_setter sf objects).1.camera_identifier =
        z.camera_identifier ∧
      (z.objects_in_zone_setter sf objects).1.camera_resolution =
        z.camera_resolution ∧
      (z.objects_in_zone_setter sf objects).1.name = z.name ∧
      (z.objects_in_zone_setter sf objects).1.coordinates = z.coordinates ∧
      (z.objects_in_zone_setter sf objects).1.object_filters =
        z.object_filters := by
  by_cases h : listValueEq objects z.objects_in_zone = true <;>
    simp [Zone.objects_in_zone_setter, h]

theorem setter_events_length (z : Zone) (sf : SharedFrame)
    (objects : List DetectedObject) :
    (z.objects_in_zone_setter sf objects).2.length ≤ 1 := by
  by_cases h : listValueEq objects z.objects_in_zone = true <;>
    simp [Zone.objects_in_zone_setter, h]

theorem filter_zone_accepted_def (g : ObjectInPolygon) (z : Zone)
    (sf : SharedFrame) (objects : List DetectedObject) :
    (Zone.filter_zone g z sf objects).accepted =
      (filterZoneLoop z.object_filters g z.camera_resolution z.coordinates
        objects).accepted := rfl

theorem filter_zone_batch_def (g : ObjectInPolygon) (z : Zone)
    (sf : SharedFrame) (objects : List DetectedObject) :
    (Zone.filter_zone g z sf objects).batch =
      (filterZoneLoop z.object_filters g z.camera_resolution z.coordinates
        objects).batch := rfl

theorem filter_zone_calls_def (g : ObjectInPolygon) (z : Zone)
    (sf : SharedFrame) (objects : List DetectedObject) :
    (Zone.filter_zone g z sf objects).calls =
      (filterZoneLoop z.object_filters g z.camera_resolution z.coordinates
        objects).calls := rfl

theorem filter_zone_zone_def (g : ObjectInPolygon) (z : Zone)
    (sf : SharedFrame) (objects : List DetectedObject) :
    (Zone.filter_zone g z sf objects).zone =
      (z.objects_in_zone_setter sf
        (filterZoneLoop z.object_filters g z.camera_resolution z.coordinates
          objects).accepted).1 := rfl

theorem filter_zone_events_def (g : ObjectInPolygon) (z : Zone)
    (sf : SharedFrame) (objects : List DetectedObject) :
    (Zone.filter_zone g z sf objects).events =
      (z.objects_in_zone_setter sf
        (filterZoneLoop z.object_filters g z.camera_resolution z.coordinates
          objects).accepted).2 := rfl

theorem zip_self_map {α β : Type} (l : List α) (fn : α → β) :
    l.zip (l.map fn) = l.map (fun a => (a, fn a)) := by
  induction l with
  | nil => rfl
  | cons a as ih => simp [ih]

theorem filter_zone_noop (g : ObjectInPolygon) (z : Zone) (sf : SharedFrame)
    (objects : List DetectedObject)
    (h : listValueEq ((Zone.filter_zone g z sf objects).accepted)
      z.objects_in_zone = true) :
    (Zone.filter_zone g z sf objects).zone = z ∧
      (Zone.filter_zone g z sf objects).events = [] := by
  have hs := setter_of_valueEq z sf ((Zone.filter_zone g z sf objects).accepted) h
  exact ⟨congrArg Prod.fst hs, congrArg Prod.snd hs⟩

/-! Claim theorems. -/

/-- C1: for every frame reference and detection batch, the accepted list
produced by `filter_zone` (the list stored and published as
`objects_in_zone`) keeps the accepted detections in the same relative order
as the input batch: their identities form a subsequence of the input
identities, and the list itself is a subsequence of the post-call batch —
nothing is re-sorted. -/
theorem filter_zone_preserves_input_order (g : ObjectInPolygon) (z : Zone)
    (sf : SharedFrame) (objects : List DetectedObject) :
    List.Sublist
      (((Zone.filter_zone g z sf objects).accepted).map DetectedObject.objId)
      (objects.map DetectedObject.objId) ∧
    List.Sublist (Zone.filter_zone g z sf objects).accepted
      (Zone.filter_zone g z sf objects).batch := by
  rw [filter_zone_accepted_def, filter_zone_batch_def]
  exact ⟨loop_accepted_objId_sublist _ _ _ _ _,
    loop_accepted_sublist_batch _ _ _ _ _⟩

/-- C2: a detection whose label has no entry in the zone mapping `object_filters`
mapping is never in the accepted list, whatever its position or flags: the label of every
accepted detection has a configured filter. -/
theorem unconfigured_label_never_accepted (g : ObjectInPolygon) (z : Zone)
    (sf : SharedFrame) (objects : List DetectedObject) (o1 : DetectedObject)
    (h : o1 ∈ (Zone.filter_zone g z sf objects).accepted) :
    (z.object_filters o1.label).isSome = true := by
  rw [filter_zone_accepted_def] at h
  rcases mem_loop_accepted _ _ _ _ _ _ h with ⟨o, _, hacc, hobj⟩
  rcases processObject_accepted _ _ _ _ _ hacc with ⟨f, hf, _, _, _⟩
  have hlab : o1.label = o.label := by rw [← hobj, processObject_label]
  rw [hlab, hf]
  rfl

/-- C3: a detection that passes its label filter but is not contained in the
zone polygon is not accepted and is left untouched (both flags keep their
pre-call values), and in general every post-call batch entry is either the
unchanged input detection at its position or a member of the accepted list —
`filter_zone` mutates flags only on accepted objects. -/
theorem rejected_objects_untouched (g : ObjectInPolygon) (z : Zone)
    (sf : SharedFrame) (objects : List DetectedObject) :
    (∀ o f, o ∈ objects → z.object_filters o.label = some f →
      f.filter_object o = true →
      g z.camera_resolution o z.coordinates = false →
      (processObject z.object_filters g z.camera_resolution z.coordinates
          o).obj = o ∧
        (processObject z.object_filters g z.camera_resolution z.coordinates
          o).accepted = false) ∧
    (∀ p : DetectedObject × DetectedObject,
      p ∈ objects.zip (Zone.filter_zone g z sf objects).batch →
      p.2 = p.1 ∨ p.2 ∈ (Zone.filter_zone g z sf objects).accepted) := by
  constructor
  · intro o f _ hl hf hg
    exact processObject_outside _ _ _ _ _ _ hl hf hg
  · intro p hp
    rw [filter_zone_batch_def, filterZoneLoop_batch, zip_self_map] at hp
    rcases List.mem_map.mp hp with ⟨o, ho, rfl⟩
    by_cases hacc : (processObject z.object_filters g z.camera_resolution
        z.coordinates o).accepted = true
    · right
      rw [filter_zone_accepted_def]
      exact loop_accepted_of_mem _ _ _ _ _ _ ho hacc
    · left
      exact processObject_not_accepted _ _ _ _ _ (by simpa using hacc)

/-- C7: the point-in-polygon capability is consulted for a detection only
after the label lookup found a filter and the significance test of that
filter passed: every geometry call in the `filter_zone` trace is on a detection
with a configured filter that accepts it. -/
theorem geometry_gated_by_filter (g : ObjectInPolygon) (z : Zone)
    (sf : SharedFrame) (objects : List DetectedObject) (o : DetectedObject)
    (h : ZoneCall.objectInPolygonTest o ∈
      (Zone.filter_zone g z sf objects).calls) :
    ∃ f, z.object_filters o.label = some f ∧ f.filter_object o = true := by
  rw [filter_zone_calls_def] at h
  rcases mem_loop_calls _ _ _ _ _ _ h with ⟨a, _, hc⟩
  rcases processObject_geom_call _ _ _ _ _ _ hc with ⟨rfl, f, hf, hpass⟩
  exact ⟨f, hf, hpass⟩

/-- C9: `filter_zone` only ever raises the two flags, it never clears them:
at every batch position, a `relevant` or `trigger_recorder` flag that was
true before the call is still true on the corresponding post-call
detection. -/
theorem filter_zone_only_raises_flags (g : ObjectInPolygon) (z : Zone)
    (sf : SharedFrame) (objects : List DetectedObject)
    (p : DetectedObject × DetectedObject)
    (hp : p ∈ objects.zip (Zone.filter_zone g z sf objects).batch) :
    (p.1.relevant = true → p.2.relevant = true) ∧
      (p.1.trigger_recorder = true → p.2.trigger_recorder = true) := by
  rw [filter_zone_batch_def, filterZoneLoop_batch, zip_self_map] at hp
  rcases List.mem_map.mp hp with ⟨o, _, rfl⟩
  by_cases hacc : (processObject z.object_filters g z.camera_resolution
      z.coordinates o).accepted = true
  · rcases processObject_accepted _ _ _ _ _ hacc with ⟨f, _, _, _, hobj⟩
    simp only [hobj]
    constructor
    · intro _
      trivial
    · intro h
      simp [h]
  · rw [processObject_not_accepted _ _ _ _ _ (by simpa using hacc)]
    exact ⟨id, id⟩

/-- C4: if two consecutive evaluations of the same zone yield value-equal
accepted lists, the second update is a no-op — the stored zone state is
unchanged, the second call dispatches no event, and at most one event is
dispatched across the two calls. -/
theorem second_equal_update_is_noop (g : ObjectInPolygon) (z : Zone)
    (sf1 sf2 : SharedFrame) (objs1 objs2 : List DetectedObject)
    (h : listValueEq
      (((Zone.filter_zone g z sf1 objs1).zone.filter_zone g sf2
        objs2).accepted)
      ((Zone.filter_zone g z sf1 objs1).accepted) = true) :
    ((Zone.filter_zone g z sf1 objs1).zone.filter_zone g sf2 objs2).zone =
        (Zone.filter_zone g z sf1 objs1).zone ∧
      ((Zone.filter_zone g z sf1 objs1).zone.filter_zone g sf2
        objs2).events = [] ∧
      (Zone.filter_zone g z sf1 objs1).events.length +
        ((Zone.filter_zone g z sf1 objs1).zone.filter_zone g sf2
          objs2).events.length ≤ 1 := by
  have hstored : listValueEq ((Zone.filter_zone g z sf1 objs1).accepted)
      ((Zone.filter_zone g z sf1 objs1).zone.objects_in_zone) = true :=
    setter_stored_valueEq z sf1 _
  have h2 : listValueEq
      (((Zone.filter_zone g z sf1 objs1).zone.filter_zone g sf2
        objs2).accepted)
      ((Zone.filter_zone g z sf1 objs1).zone.objects_in_zone) = true :=
    listValueEq_trans _ _ _ h hstored
  obtain ⟨hz2, he2⟩ :=
    filter_zone_noop g (Zone.filter_zone g z sf1 objs1).zone sf2 objs2 h2
  refine ⟨hz2, he2, ?_⟩
  rw [he2]
  simp only [List.length_nil, Nat.add_zero]
  exact setter_events_length z sf1 _

/-- C5 counterexample: for an accepted detection whose `trigger_recorder`
flag was already true before the call and whose matching filter has
`trigger_recorder = false`, the flag is still true after `filter_zone`, so
"the flag is true if and only if the filter property is true" fails on
this input. -/
theorem trigger_recorder_iff_counterexample :
    (Zone.filter_zone gAlways zonePerson frame0 [objFlagged]).accepted =
        [objFlaggedOut] ∧
      zonePerson.object_filters objFlaggedOut.label = some passAll ∧
      passAll.trigger_recorder = false ∧
      ¬(objFlaggedOut.trigger_recorder = true ↔
          passAll.trigger_recorder = true) := by
  refine ⟨rfl, rfl, rfl, ?_⟩
  intro hiff
  exact absurd (hiff.mp rfl) (by decide)

/-- C5 (amended): after `filter_zone`, every accepted object `o1` is the
processed image of a batch detection `o` — `processObject` maps `o` to `o1`
with acceptance, and they share their identity `objId` — `o1` has
`relevant = true`, and the `trigger_recorder` flag of `o1` equals the
disjunction of the pre-call value of that flag on `o` itself with the
`trigger_recorder` property of the matching filter: the flag is true if and
only if the filter triggers the recorder or the flag was already true on
that very detection before the call. -/
theorem trigger_recorder_on_accepted (g : ObjectInPolygon) (z : Zone)
    (sf : SharedFrame) (objects : List DetectedObject) (o1 : DetectedObject)
    (h : o1 ∈ (Zone.filter_zone g z sf objects).accepted) :
    ∃ o f, o ∈ objects ∧
      (processObject z.object_filters g z.camera_resolution z.coordinates
        o).obj = o1 ∧
      (processObject z.object_filters g z.camera_resolution z.coordinates
        o).accepted = true ∧
      o1.objId = o.objId ∧
      z.object_filters o1.label = some f ∧
      o1.relevant = true ∧
      o1.trigger_recorder = (o.trigger_recorder || f.trigger_recorder) := by
  rw [filter_zone_accepted_def] at h
  rcases mem_loop_accepted _ _ _ _ _ _ h with ⟨o, ho, hacc, hobj⟩
  rcases processObject_accepted _ _ _ _ _ hacc with ⟨f, hf, _, _, hout⟩
  have hlab : o1.label = o.label := by rw [← hobj, processObject_label]
  refine ⟨o, f, ho, hobj, hacc, ?_, ?_, ?_, ?_⟩
  · rw [← hobj, processObject_objId]
  · rw [hlab, hf]
  · rw [← hobj, hout]
  · rw [← hobj, hout]

/-- C6: whenever the new accepted list differs in value from the stored
`objects_in_zone`, the setter replaces the stored list and dispatches
exactly one event, on the topic built from the camera identifier and zone
name, whose payload carries the camera identifier, the frame reference, the
zone reference and the new list. -/
theorem setter_publishes_on_change (z : Zone) (sf : SharedFrame)
    (objects : List DetectedObject)
    (h : listValueEq objects z.objects_in_zone = false) :
    z.objects_in_zone_setter sf objects =
      ({ z with objects_in_zone := objects },
        [{ topic := EVENT_OBJECTS_IN_ZONE z.camera_identifier z.name,
            camera_identifier := z.camera_identifier,
            shared_frame := sf,
            zone := { z with objects_in_zone := objects },
            objects := objects }]) :=
  setter_of_not_valueEq z sf objects h

/-- C8: change detection compares the new list to the stored one by
element-wise, order-sensitive value equality — any new list value-equal to
the stored one (in particular one whose detections have different
identities) leaves the stored state unchanged and dispatches no event. -/
theorem value_equal_list_suppresses_event (z : Zone) (sf : SharedFrame)
    (objects : List DetectedObject)
    (h : listValueEq objects z.objects_in_zone = true) :
    z.objects_in_zone_setter sf objects = (z, []) :=
  setter_of_valueEq z sf objects h

/-- C10: a freshly constructed zone stores an empty `objects_in_zone`, so a
first evaluation whose accepted list is empty dispatches no event and leaves
the zone exactly as constructed. -/
theorem fresh_zone_empty_no_event (cam : String) (res : Resolution)
    (nm : String) (cs : Coordinates) (labels : List (String × Filter))
    (g : ObjectInPolygon) (sf : SharedFrame) (objects : List DetectedObject)
    (h : ((Zone.init cam res nm cs labels).filter_zone g sf
      objects).accepted = []) :
    (Zone.init cam res nm cs labels).objects_in_zone = [] ∧
      ((Zone.init cam res nm cs labels).filter_zone g sf
        objects).events = [] ∧
      ((Zone.init cam res nm cs labels).filter_zone g sf objects).zone =
        Zone.init cam res nm cs labels := by
  have hval : listValueEq
      (((Zone.init cam res nm cs labels).filter_zone g sf objects).accepted)
      ((Zone.init cam res nm cs labels).objects_in_zone) = true := by
    rw [h]
    rfl
  obtain ⟨hz, he⟩ :=
    filter_zone_noop g (Zone.init cam res nm cs labels) sf objects hval
  exact ⟨rfl, he, hz⟩

/-! Witnesses: each hypothesis-bearing claim theorem applied at a concrete
input. -/

theorem unconfigured_label_never_accepted_witness :
    objPersonAcc ∈
        (Zone.filter_zone gAlways zonePerson frame0 [objPerson, objCar]).accepted ∧
      (zonePerson.object_filters objPersonAcc.label).isSome = true := by
  have hm : objPersonAcc ∈
      (Zone.filter_zone gAlways zonePerson frame0 [objPerson, objCar]).accepted := by
    decide
  exact ⟨hm, unconfigured_label_never_accepted gAlways zonePerson frame0
    [objPerson, objCar] objPersonAcc hm⟩

theorem rejected_objects_untouched_witness :
    ((processObject zonePerson.object_filters gNever
        zonePerson.camera_resolution zonePerson.coordinates objPerson).obj =
          objPerson ∧
      (processObject zonePerson.object_filters gNever
        zonePerson.camera_resolution zonePerson.coordinates
        objPerson).accepted = false) ∧
      ((objPerson, objPerson).2 = (objPerson, objPerson).1 ∨
        (objPerson, objPerson).2 ∈
          (Zone.filter_zone gNever zonePerson frame0 [objPerson]).accepted) := by
  have h := rejected_objects_untouched gNever zonePerson frame0 [objPerson]
  refine ⟨h.1 objPerson passAll ?_ ?_ ?_ ?_, h.2 (objPerson, objPerson) ?_⟩
  · exact List.mem_cons_self _ _
  · rfl
  · rfl
  · rfl
  · decide

theorem second_equal_update_is_noop_witness :
    listValueEq
        (((Zone.filter_zone gAlways zonePerson frame0 [objPerson]).zone.filter_zone
          gAlways frame1 [objPerson]).accepted)
        ((Zone.filter_zone gAlways zonePerson frame0 [objPerson]).accepted) =
          true ∧
      (((Zone.filter_zone gAlways zonePerson frame0
            [objPerson]).zone.filter_zone gAlways frame1 [objPerson]).zone =
          (Zone.filter_zone gAlways zonePerson frame0 [objPerson]).zone ∧
        ((Zone.filter_zone gAlways zonePerson frame0
          [objPerson]).zone.filter_zone gAlways frame1 [objPerson]).events =
            [] ∧
        (Zone.filter_zone gAlways zonePerson frame0 [objPerson]).events.length +
          ((Zone.filter_zone gAlways zonePerson frame0
            [objPerson]).zone.filter_zone gAlways frame1
              [objPerson]).events.length ≤ 1) := by
  have h : listValueEq
      (((Zone.filter_zone gAlways zonePerson frame0 [objPerson]).zone.filter_zone
        gAlways frame1 [objPerson]).accepted)
      ((Zone.filter_zone gAlways zonePerson frame0 [objPerson]).accepted) =
        true := by
    decide
  exact ⟨h, second_equal_update_is_noop gAlways zonePerson frame0 frame1
    [objPerson] [objPerson] h⟩

theorem trigger_recorder_on_accepted_witness :
    objFlaggedOut ∈
        (Zone.filter_zone gAlways zonePerson frame0 [objFlagged]).accepted ∧
      ∃ o f, o ∈ [objFlagged] ∧
        (processObject zonePerson.object_filters gAlways
          zonePerson.camera_resolution zonePerson.coordinates o).obj =
            objFlaggedOut ∧
        (processObject zonePerson.object_filters gAlways
          zonePerson.camera_resolution zonePerson.coordinates o).accepted =
            true ∧
        objFlaggedOut.objId = o.objId ∧
        zonePerson.object_filters objFlaggedOut.label = some f ∧
        objFlaggedOut.relevant = true ∧
        objFlaggedOut.trigger_recorder =
          (o.trigger_recorder || f.trigger_recorder) := by
  have hm : objFlaggedOut ∈
      (Zone.filter_zone gAlways zonePerson frame0 [objFlagged]).accepted := by
    decide
  exact ⟨hm, trigger_recorder_on_accepted gAlways zonePerson frame0
    [objFlagged] objFlaggedOut hm⟩

theorem setter_publishes_on_change_witness :
    listValueEq [objPersonAcc] zonePerson.objects_in_zone = false ∧
      zonePerson.objects_in_zone_setter frame0 [objPersonAcc] =
        ({ zonePerson with objects_in_zone := [objPersonAcc] },
          [{ topic := EVENT_OBJECTS_IN_ZONE zonePerson.camera_identifier
                zonePerson.name,
              camera_identifier := zonePerson.camera_identifier,
              shared_frame := frame0,
              zone := { zonePerson with objects_in_zone := [objPersonAcc] },
              objects := [objPersonAcc] }]) := by
  have h : listValueEq [objPersonAcc] zonePerson.objects_in_zone = false := rfl
  exact ⟨h, setter_publishes_on_change zonePerson frame0 [objPersonAcc] h⟩

theorem geometry_gated_by_filter_witness :
    ZoneCall.objectInPolygonTest objPerson ∈
        (Zone.filter_zone gAlways zonePerson frame0 [objPerson, objCar]).calls ∧
      ∃ f, zonePerson.object_filters objPerson.label = some f ∧
        f.filter_object objPerson = true := by
  have hm : ZoneCall.objectInPolygonTest objPerson ∈
      (Zone.filter_zone gAlways zonePerson frame0 [objPerson, objCar]).calls := by
    decide
  exact ⟨hm, geometry_gated_by_filter gAlways zonePerson frame0
    [objPerson, objCar] objPerson hm⟩

theorem value_equal_list_suppresses_event_witness :
    listValueEq [objPersonAlias] zoneStored.objects_in_zone = true ∧
      objPersonAlias.objId ≠ objPersonAcc.objId ∧
      zoneStored.objects_in_zone_setter frame1 [objPersonAlias] =
        (zoneStored, []) := by
  have h : listValueEq [objPersonAlias] zoneStored.objects_in_zone = true := by
    decide
  exact ⟨h, by decide,
    value_equal_list_suppresses_event zoneStored frame1 [objPersonAlias] h⟩

theorem filter_zone_only_raises_flags_witness :
    (objFlagged, objFlaggedOut) ∈
        [objFlagged].zip
          (Zone.filter_zone gAlways zonePerson frame0 [objFlagged]).batch ∧
      (((objFlagged, objFlaggedOut).1.relevant = true →
          (objFlagged, objFlaggedOut).2.relevant = true) ∧
        ((objFlagged, objFlaggedOut).1.trigger_recorder = true →
          (objFlagged, objFlaggedOut).2.trigger_recorder = true)) := by
  have hm : (objFlagged, objFlaggedOut) ∈
      [objFlagged].zip
        (Zone.filter_zone gAlways zonePerson frame0 [objFlagged]).batch := by
    decide
  exact ⟨hm, filter_zone_only_raises_flags gAlways zonePerson frame0
    [objFlagged] (objFlagged, objFlaggedOut) hm⟩

theorem fresh_zone_empty_no_event_witness :
    ((Zone.init "camera_two" (100, 100) "zone_two" squareZone []).filter_zone
        gAlways frame0 [objCar]).accepted = [] ∧
      ((Zone.init "camera_two" (100, 100) "zone_two" squareZone
          []).objects_in_zone = [] ∧
        ((Zone.init "camera_two" (100, 100) "zone_two" squareZone
          []).filter_zone gAlways frame0 [objCar]).events = [] ∧
        ((Zone.init "camera_two" (100, 100) "zone_two" squareZone
          []).filter_zone gAlways frame0 [objCar]).zone =
            Zone.init "camera_two" (100, 100) "zone_two" squareZone []) := by
  have h : ((Zone.init "camera_two" (100, 100) "zone_two" squareZone
      []).filter_zone gAlways frame0 [objCar]).accepted = [] := rfl
  exact ⟨h, fresh_zone_empty_no_event "camera_two" (100, 100) "zone_two"
    squareZone [] gAlways frame0 [objCar] h⟩

end Viseron
